import Mathlib

/-!
Shallow embedding of `src/pkg/reconciler/deployment/controller.go` (package
`deployment` of the kcp prototype controller): the dual-queue reconciliation
core.  Go structs become Lean structures, pointer mutation of cached objects
is made explicit by returning the cached object's post-pass value, external
collaborators (indexer, lister, reconcile function, persistence client) are
parameters, and the side effects of a pass (queue operations, persistence
calls) are returned as explicit traces.
-/

/-- Errors are opaque to this core (Go `error` values); we model them as
strings. -/
abbrev Err : Type := String

/-- The status portion of a deployment (`appsv1.DeploymentStatus`); only the
replica count is relevant to this core. -/
structure DeploymentStatus where
  replicas : Nat
  deriving DecidableEq, Repr

/-- The spec portion of a deployment (`appsv1.DeploymentSpec`); only the
replica count is relevant to this core. -/
structure DeploymentSpec where
  replicas : Nat
  deriving DecidableEq, Repr

/-- Object identity metadata (`metav1.ObjectMeta`): namespace, name, and the
label map.  A Go `map[string]string` distinguishes `nil` from an empty map, so
labels are an `Option` of an association list (`none` = nil map). -/
structure ObjectMeta where
  ns : String
  name : String
  labels : Option (List (String × String))
  deriving DecidableEq, Repr

/-- A deployment object (`appsv1.Deployment`): metadata, spec and status. -/
structure Deployment where
  metadata : ObjectMeta
  spec : DeploymentSpec
  status : DeploymentStatus
  deriving DecidableEq, Repr

/-- A topology-site object (`v1alpha1.Cluster`); its fields beyond identity
are opaque to this core. -/
structure Cluster where
  metadata : ObjectMeta
  deriving DecidableEq, Repr

/-- `cache.MetaNamespaceKeyFunc` restricted to objects that carry metadata
(typed Deployments/Clusters always do): `namespace + "/" + name`, or just
`name` when the namespace is empty. -/
def metaNamespaceKeyFunc (m : ObjectMeta) : String :=
  if m.ns = "" then m.name else m.ns ++ "/" ++ m.name

/-- The two work queues of the controller: `c.queue` (primary deployments)
and `c.clusterQueue` (topology sites). -/
inductive QueueId
  | primary
  | cluster
  deriving DecidableEq, Repr

/-- Operations the core issues against the work queues and the error sink,
tagged with the queue they target.  `add` is part of the workqueue interface
(`workqueue.RateLimitingInterface.Add`); whether the code ever emits it is
exactly what several claims are about. -/
inductive QueueOp
  | get (q : QueueId) (k : String)
  | done (q : QueueId) (k : String)
  | add (q : QueueId) (k : String)
  | addRateLimited (q : QueueId) (k : String)
  | forget (q : QueueId) (k : String)
  | reportError
  deriving DecidableEq, Repr

/-- Persistence calls issued by `process` through the kube client
(`Deployments(ns).Update` / `Deployments(ns).UpdateStatus`). -/
inductive PersistCall
  | update (d : Deployment)
  | updateStatus (d : Deployment)
  deriving DecidableEq, Repr

/-- `Controller.enqueue` (controller.go:82-89): derive the key with
`MetaNamespaceKeyFunc` and call `AddRateLimited` on the primary queue.  Key
derivation cannot fail for a typed Deployment, so the `HandleError` branch is
not reachable here. -/
def enqueueOps (d : Deployment) : List QueueOp :=
  [QueueOp.addRateLimited QueueId.primary (metaNamespaceKeyFunc d.metadata)]

/-- `Controller.enqueueCluster` (controller.go:73-80): derive the key and call
`AddRateLimited` on the cluster queue. -/
def enqueueClusterOps (c : Cluster) : List QueueOp :=
  [QueueOp.addRateLimited QueueId.cluster (metaNamespaceKeyFunc c.metadata)]

/-- Result of one `process` pass: the persistence calls issued, the returned
error (`none` = nil), and the value held by the cached object after the pass.
The Go code aliases the cached object (`current := obj.(*appsv1.Deployment)`
is the indexer's own pointer, and `c.reconcile(ctx, current)` mutates it in
place), so `cacheAfter` records what the cache's object holds when `process`
returns; `none` means no cached object was obtained. -/
structure ProcessResult where
  calls : List PersistCall
  err : Option Err
  cacheAfter : Option Deployment
  deriving DecidableEq, Repr

/-- `Controller.process` (controller.go:168-196).  Parameters stand for the
external collaborators: `indexer` is `c.indexer.GetByKey` (error, or found /
not-found), `reconcile` is the externally supplied `c.reconcile`, which
mutates the object in place and may return an error — modelled as returning
the object's final in-place value together with the optional error — and
`updateErr` / `updateStatusErr` give the error returned by the persistence
client for the corresponding call.

Control flow, faithful to the source: on indexer error return it; on
not-found return nil; otherwise snapshot `previous := current.DeepCopy()`,
run reconcile on the cached object itself, propagate its error; if the whole
object semantically differs from the snapshot issue `Update` and return its
error; else if the status differs issue `UpdateStatus` and return its error;
else return the (nil) indexer error. -/
def process (indexer : String → Except Err (Option Deployment))
    (reconcile : Deployment → Deployment × Option Err)
    (updateErr : Deployment → Option Err)
    (updateStatusErr : Deployment → Option Err)
    (key : String) : ProcessResult :=
  match indexer key with
  | Except.error e => { calls := [], err := some e, cacheAfter := none }
  | Except.ok none => { calls := [], err := none, cacheAfter := none }
  | Except.ok (some obj) =>
    let previous := obj
    let rec_ := reconcile obj
    let current := rec_.1
    match rec_.2 with
    | some e => { calls := [], err := some e, cacheAfter := some current }
    | none =>
      if previous ≠ current then
        { calls := [PersistCall.update current], err := updateErr current,
          cacheAfter := some current }
      else if previous.status ≠ current.status then
        { calls := [PersistCall.updateStatus current],
          err := updateStatusErr current, cacheAfter := some current }
      else
        { calls := [], err := none, cacheAfter := some current }

/-- `handleErr` (controller.go:147-166), as the list of queue/sink operations
it performs, parameterised by the queue it was handed, the handler's error and
the key's current requeue count (`queue.NumRequeues(key)`, i.e. the number of
`AddRateLimited` calls for that key since the last `Forget`): nil error →
`Forget`; fewer than 5 requeues → `AddRateLimited`; otherwise `Forget` and
report to the process-wide sink (`runtime.HandleError`). -/
def handleErrOps (q : QueueId) (err : Option Err) (numRequeues : Nat)
    (key : String) : List QueueOp :=
  match err with
  | none => [QueueOp.forget q key]
  | some _ =>
    if numRequeues < 5 then [QueueOp.addRateLimited q key]
    else [QueueOp.forget q key, QueueOp.reportError]

/-- One iteration of `processNextWorkItem` (controller.go:113-128) when `Get`
yields a key: `Get` on the primary queue, then `handleErr` against the primary
queue, and finally the deferred `c.queue.Done(key)` — also on the primary
queue.  `err` is what `process` returned and `n` the key's requeue count. -/
def processNextWorkItemOps (key : String) (err : Option Err) (n : Nat) :
    List QueueOp :=
  QueueOp.get QueueId.primary key ::
    handleErrOps QueueId.primary err n key ++ [QueueOp.done QueueId.primary key]

/-- One iteration of `processNextClusterWorkItem` (controller.go:130-145) when
`Get` yields a key: `Get` on the cluster queue, then `handleErr` against the
cluster queue, and finally the deferred `c.queue.Done(key)` — which in the
source names the PRIMARY queue, not the cluster queue the key came from. -/
def processNextClusterWorkItemOps (key : String) (err : Option Err) (n : Nat) :
    List QueueOp :=
  QueueOp.get QueueId.cluster key ::
    handleErrOps QueueId.cluster err n key ++ [QueueOp.done QueueId.primary key]

/-- The worker-loop trace for a key whose handler fails with `e` on every
attempt: run one `processNextWorkItem` iteration; exactly when it re-enqueued
the key (`AddRateLimited` appears in the iteration's operations) the key
becomes pending again and a worker runs another iteration, with the requeue
count incremented by that `AddRateLimited`.  `fuel` bounds the recursion; the
run self-terminates once `handleErr` stops re-enqueueing. -/
def failingRetryRun (e : Err) (key : String) : Nat → Nat → List QueueOp
  | 0, _ => []
  | fuel + 1, n =>
    let attempt := processNextWorkItemOps key (some e) n
    attempt ++
      (if QueueOp.addRateLimited QueueId.primary key ∈ attempt then
        failingRetryRun e key fuel (n + 1)
      else [])

/-- Modelled from the spec: the ownership label key (the constant
`ownedByLabel` lives in another file of the repository, outside src/); a
non-empty value marks a derived resource, per the spec a "label/annotation
indicating ownership (root vs. derived)".  Its concrete value is irrelevant
to this core. -/
def ownedByLabel : String := "ownedBy"

/-- Go map indexing `m[k]` on a `map[string]string`: the empty string when the
map is nil or the key is absent. -/
def lookupLabel (labels : Option (List (String × String))) (k : String) :
    String :=
  match labels with
  | none => ""
  | some l => (l.lookup k).getD ""

/-- The `if d.Labels == nil { d.Labels = map[string]string{} }` step of
`processCluster` (controller.go:211-213): it MUTATES the listed (cached)
deployment, replacing a nil label map by an empty one. -/
def normalizeLabels (d : Deployment) : Deployment :=
  match d.metadata.labels with
  | none => { d with metadata := { d.metadata with labels := some [] } }
  | some _ => d

/-- A root deployment: the ownership label reads as the empty string
(`d.Labels[ownedByLabel] == ""`, controller.go:214), i.e. the label is absent
or empty. -/
def isRoot (d : Deployment) : Bool :=
  lookupLabel d.metadata.labels ownedByLabel == ""

/-- The `for _, d := range ds` loop of `processCluster` (controller.go:210-217)
over the listed deployments: normalize each deployment's labels in place, and
enqueue it when its ownership label is empty.  Returns the queue operations
issued and the post-loop values of the listed (cached) objects. -/
def rebalanceLoop : List Deployment → List QueueOp × List Deployment
  | [] => ([], [])
  | d :: ds =>
    let d1 := normalizeLabels d
    let ops :=
      if lookupLabel d1.metadata.labels ownedByLabel = "" then enqueueOps d1
      else []
    let rest := rebalanceLoop ds
    (ops ++ rest.1, d1 :: rest.2)

/-- Result of one `processCluster` pass: queue operations issued, returned
error, and the post-pass values of the objects the lister handed out
(pointers into the cache). -/
structure ClusterResult where
  ops : List QueueOp
  err : Option Err
  cacheAfter : List Deployment
  deriving DecidableEq, Repr

/-- `Controller.processCluster` (controller.go:199-219).  The topology key is
discarded by the source (`func (c *Controller) processCluster(string)`).
`lister` stands for `c.lister.List(labels.Everything())`: an error, or the
cached deployments.  On lister error the error is returned and nothing is
enqueued; otherwise the rebalance loop runs. -/
def processCluster (lister : Except Err (List Deployment)) : ClusterResult :=
  match lister with
  | Except.error e => { ops := [], err := some e, cacheAfter := [] }
  | Except.ok ds =>
    let r := rebalanceLoop ds
    { ops := r.1, err := none, cacheAfter := r.2 }

/-- A cache notification from the watch layer. -/
inductive Event (α : Type)
  | add (obj : α)
  | update (old cur : α)
  | delete (obj : α)

/-- `cache.ResourceEventHandlerFuncs`: each hook is optional (nil function
fields in Go); a nil hook ignores its notifications. -/
structure ResourceEventHandlerFuncs (α : Type) where
  addFunc : Option (α → List QueueOp)
  updateFunc : Option (α → α → List QueueOp)
  deleteFunc : Option (α → List QueueOp)

/-- Dispatch of one cache notification through a
`ResourceEventHandlerFuncs`: call the matching hook if it is set, otherwise
do nothing (client-go's `OnAdd`/`OnUpdate`/`OnDelete` on nil members). -/
def dispatch {α : Type} (h : ResourceEventHandlerFuncs α) :
    Event α → List QueueOp
  | Event.add o =>
    match h.addFunc with
    | some f => f o
    | none => []
  | Event.update o n =>
    match h.updateFunc with
    | some f => f o n
    | none => []
  | Event.delete o =>
    match h.deleteFunc with
    | some f => f o
    | none => []

/-- The handlers `NewController` registers on the Deployment informer
(controller.go:52-55): `AddFunc` and `UpdateFunc` both enqueue; NO
`DeleteFunc` is registered. -/
def deploymentHandlers : ResourceEventHandlerFuncs Deployment :=
  { addFunc := some enqueueOps,
    updateFunc := some fun _ o => enqueueOps o,
    deleteFunc := none }

/-- The handlers `NewController` registers on the Cluster informer
(controller.go:42-46): `AddFunc`, `UpdateFunc` and `DeleteFunc` all enqueue
onto the cluster queue. -/
def clusterHandlers : ResourceEventHandlerFuncs Cluster :=
  { addFunc := some enqueueClusterOps,
    updateFunc := some fun _ o => enqueueClusterOps o,
    deleteFunc := some enqueueClusterOps }

/-! Concrete sample objects used by counterexamples and witnesses. -/

/-- A root deployment `default/a` (empty label map). -/
def rootA : Deployment :=
  { metadata := { ns := "default", name := "a", labels := some [] },
    spec := { replicas := 1 }, status := { replicas := 1 } }

/-- A root deployment `default/b` whose label map is nil. -/
def nilLabelRootB : Deployment :=
  { metadata := { ns := "default", name := "b", labels := none },
    spec := { replicas := 1 }, status := { replicas := 1 } }

/-- A derived deployment `default/c`: its ownership label is set. -/
def derivedC : Deployment :=
  { metadata := { ns := "default", name := "c", labels := some [(ownedByLabel, "a")] },
    spec := { replicas := 1 }, status := { replicas := 1 } }

/-- The deployment `default/x` of the spec's status-only scenario:
`status.replicas = 2`. -/
def depX : Deployment :=
  { metadata := { ns := "default", name := "x", labels := some [] },
    spec := { replicas := 1 }, status := { replicas := 2 } }

/-- A reconcile function that only changes the status: it sets
`status.replicas = 3` and succeeds. -/
def statusOnlyReconcile (d : Deployment) : Deployment × Option Err :=
  ({ d with status := { replicas := 3 } }, none)

/-- `depX` after `statusOnlyReconcile`: same metadata and spec, new status. -/
def depX3 : Deployment := { depX with status := { replicas := 3 } }

/-- An indexer holding exactly `depX` under its key. -/
def indexerX (k : String) : Except Err (Option Deployment) :=
  if k = "default/x" then Except.ok (some depX) else Except.ok none

/-- A persistence client that always succeeds (returns nil). -/
def okClient (_ : Deployment) : Option Err := none

/-! Helper lemmas shared by several claims. -/

/-- Normalizing a nil label map to an empty one does not change what any
label lookup returns. -/
theorem normalizeLabels_lookup (d : Deployment) (k : String) :
    lookupLabel (normalizeLabels d).metadata.labels k
      = lookupLabel d.metadata.labels k := by
  unfold normalizeLabels
  cases h : d.metadata.labels <;> simp [lookupLabel, h]

/-- Normalizing the label map does not change the object's key. -/
theorem normalizeLabels_key (d : Deployment) :
    metaNamespaceKeyFunc (normalizeLabels d).metadata
      = metaNamespaceKeyFunc d.metadata := by
  unfold normalizeLabels
  cases h : d.metadata.labels <;> simp [metaNamespaceKeyFunc, h]

/-- The queue operations of the rebalance loop: one `AddRateLimited` on the
primary queue per root deployment, in list order, and nothing else. -/
theorem rebalanceLoop_ops (ds : List Deployment) :
    (rebalanceLoop ds).1
      = (ds.filter isRoot).map
          (fun d => QueueOp.addRateLimited QueueId.primary
            (metaNamespaceKeyFunc d.metadata)) := by
  induction ds with
  | nil => rfl
  | cons d ds ih =>
    simp only [rebalanceLoop, List.filter_cons]
    rw [normalizeLabels_lookup]
    by_cases h : lookupLabel d.metadata.labels ownedByLabel = ""
    · simp [h, isRoot, ih, enqueueOps, normalizeLabels_key]
    · simp [h, isRoot, ih]

/-! Claim theorems. -/

/-- Claim C10: for every key, every cache state and every behavior of the
reconcile function and persistence client, `process` never issues an
`UpdateStatus` call: whole-object semantic equality is checked first, and a
pair of semantically equal objects has semantically equal statuses, so the
status-only branch is unreachable. -/
theorem process_never_calls_updateStatus
    (indexer : String → Except Err (Option Deployment))
    (reconcile : Deployment → Deployment × Option Err)
    (updateErr updateStatusErr : Deployment → Option Err)
    (key : String) (d : Deployment) :
    PersistCall.updateStatus d ∉
      (process indexer reconcile updateErr updateStatusErr key).calls := by
  unfold process
  cases indexer key with
  | error e => simp
  | ok o =>
    cases o with
    | none => simp
    | some obj =>
      cases hro : (reconcile obj).2 with
      | some e => simp [hro]
      | none =>
        by_cases heq : obj = (reconcile obj).1
        · simp [hro, ← heq]
        · simp [hro, heq]

/-- Claim C8: whenever the cache lookup reports not-found for the key,
`process` returns success (nil error) with zero persistence calls. -/
theorem process_notFound_success
    (indexer : String → Except Err (Option Deployment))
    (reconcile : Deployment → Deployment × Option Err)
    (updateErr updateStatusErr : Deployment → Option Err)
    (key : String)
    (h : indexer key = Except.ok none) :
    process indexer reconcile updateErr updateStatusErr key
      = { calls := [], err := none, cacheAfter := none } := by
  unfold process
  rw [h]

/-- Witness for C8: a concrete empty indexer. -/
theorem process_notFound_success_witness :
    process (fun _ => Except.ok none) (fun d => (d, none)) okClient okClient
        "default/x"
      = { calls := [], err := none, cacheAfter := none } :=
  process_notFound_success _ _ _ _ _ rfl

/-- Claim C9: when the reconcile function succeeds and leaves the object
semantically equal to the pre-reconcile snapshot, `process` issues zero
persistence calls and returns success. -/
theorem process_noop_no_persistence
    (indexer : String → Except Err (Option Deployment))
    (reconcile : Deployment → Deployment × Option Err)
    (updateErr updateStatusErr : Deployment → Option Err)
    (key : String) (obj : Deployment)
    (hidx : indexer key = Except.ok (some obj))
    (hrec : reconcile obj = (obj, none)) :
    (process indexer reconcile updateErr updateStatusErr key).calls = []
    ∧ (process indexer reconcile updateErr updateStatusErr key).err = none := by
  unfold process
  rw [hidx]
  simp [hrec]

/-- Witness for C9: a concrete cache holding `rootA` and an identity
reconcile. -/
theorem process_noop_no_persistence_witness :
    (process (fun _ => Except.ok (some rootA)) (fun d => (d, none))
        okClient okClient "default/a").calls = []
    ∧ (process (fun _ => Except.ok (some rootA)) (fun d => (d, none))
        okClient okClient "default/a").err = none :=
  process_noop_no_persistence _ _ _ _ _ rootA rfl rfl

/-- Claim C1 (code bug): on the spec's own scenario — cached `depX` with
`status.replicas = 2`, reconcile sets `status.replicas = 3` and changes
nothing else — `process` issues one full `Update` call and no `UpdateStatus`
call, where the claim requires exactly one `UpdateStatus` and zero `Update`
calls; the status-only branch of the source is dead code. -/
theorem process_statusOnly_issues_full_update :
    (process indexerX statusOnlyReconcile okClient okClient "default/x").calls
      = [PersistCall.update depX3]
    ∧ depX3.metadata = depX.metadata
    ∧ depX3.spec = depX.spec
    ∧ depX3.status ≠ depX.status
    ∧ PersistCall.updateStatus depX3 ∉
        (process indexerX statusOnlyReconcile okClient okClient
          "default/x").calls := by
  decide

/-- Claim C2 (code bug): an iteration of the topology worker loop on key
`site-1` issues its `Get` on the cluster queue but its deferred `Done` on the
PRIMARY queue (`defer c.queue.Done(key)` in `processNextClusterWorkItem`),
never on the cluster queue; the primary worker loop pairs both on the primary
queue. -/
theorem clusterWorker_done_on_wrong_queue :
    QueueOp.done QueueId.cluster "site-1" ∉
      processNextClusterWorkItemOps "site-1" none 0
    ∧ QueueOp.done QueueId.primary "site-1" ∈
      processNextClusterWorkItemOps "site-1" none 0
    ∧ QueueOp.get QueueId.cluster "site-1" ∈
      processNextClusterWorkItemOps "site-1" none 0
    ∧ QueueOp.get QueueId.primary "site-1" ∈
      processNextWorkItemOps "site-1" none 0
    ∧ QueueOp.done QueueId.primary "site-1" ∈
      processNextWorkItemOps "site-1" none 0 := by
  decide

/-- Claim C3 (code bug): the core mutates cached objects.  `processCluster`
overwrites the nil label map of a listed (cached) deployment with an empty
map, and `process` hands the indexer's own object to the reconcile function,
which mutates it in place — after the status-only reconcile the cached object
holds the new status. -/
theorem cached_objects_are_mutated :
    (processCluster (Except.ok [nilLabelRootB])).cacheAfter ≠ [nilLabelRootB]
    ∧ (processCluster (Except.ok [nilLabelRootB])).cacheAfter
        = [{ nilLabelRootB with
              metadata := { nilLabelRootB.metadata with labels := some [] } }]
    ∧ (process indexerX statusOnlyReconcile okClient okClient
        "default/x").cacheAfter = some depX3
    ∧ depX3 ≠ depX := by
  decide

/-- Counterexample to claim C4: on an add notification for `rootA` the
EventBridge issues `AddRateLimited` on the primary queue and no `Add`
operation at all, and likewise `processCluster` enqueues the root via
`AddRateLimited`, contradicting "uses Add ... and not AddRateLimited". -/
theorem event_enqueue_uses_add_refuted :
    dispatch deploymentHandlers (Event.add rootA)
      = [QueueOp.addRateLimited QueueId.primary "default/a"]
    ∧ QueueOp.add QueueId.primary "default/a" ∉
        dispatch deploymentHandlers (Event.add rootA)
    ∧ (processCluster (Except.ok [rootA])).ops
        = [QueueOp.addRateLimited QueueId.primary "default/a"]
    ∧ QueueOp.add QueueId.primary "default/a" ∉
        (processCluster (Except.ok [rootA])).ops := by
  decide

/-- Claim C4 as amended: every event-triggered enqueue — by the EventBridge
on a cache notification and by `processCluster` for each root — goes through
`AddRateLimited` on the matching queue, never plain `Add`. -/
theorem event_enqueues_use_addRateLimited
    (d old cur : Deployment) (c cOld cCur : Cluster) (ds : List Deployment) :
    dispatch deploymentHandlers (Event.add d)
      = [QueueOp.addRateLimited QueueId.primary
          (metaNamespaceKeyFunc d.metadata)]
    ∧ dispatch deploymentHandlers (Event.update old cur)
      = [QueueOp.addRateLimited QueueId.primary
          (metaNamespaceKeyFunc cur.metadata)]
    ∧ dispatch clusterHandlers (Event.add c)
      = [QueueOp.addRateLimited QueueId.cluster
          (metaNamespaceKeyFunc c.metadata)]
    ∧ dispatch clusterHandlers (Event.update cOld cCur)
      = [QueueOp.addRateLimited QueueId.cluster
          (metaNamespaceKeyFunc cCur.metadata)]
    ∧ dispatch clusterHandlers (Event.delete c)
      = [QueueOp.addRateLimited QueueId.cluster
          (metaNamespaceKeyFunc c.metadata)]
    ∧ (processCluster (Except.ok ds)).ops
      = (ds.filter isRoot).map
          (fun d => QueueOp.addRateLimited QueueId.primary
            (metaNamespaceKeyFunc d.metadata)) :=
  ⟨rfl, rfl, rfl, rfl, rfl, rebalanceLoop_ops ds⟩

/-- Counterexample to claim C5: the Deployment informer registers no delete
hook, so a delete notification for `rootA` produces no enqueue, while an add
notification does. -/
theorem deployment_delete_not_enqueued :
    dispatch deploymentHandlers (Event.delete rootA) = []
    ∧ dispatch deploymentHandlers (Event.add rootA) ≠ []
    ∧ deploymentHandlers.deleteFunc = none := by
  refine ⟨rfl, ?_, rfl⟩
  decide

/-- Claim C5 as amended: for every create and update notification about a
deployment the EventBridge computes the object's key and enqueues it on the
primary queue; delete notifications of deployments are ignored (no delete
hook is registered) and result in no enqueue. -/
theorem deployment_events_enqueue_key (d old cur : Deployment) :
    dispatch deploymentHandlers (Event.add d)
      = [QueueOp.addRateLimited QueueId.primary
          (metaNamespaceKeyFunc d.metadata)]
    ∧ dispatch deploymentHandlers (Event.update old cur)
      = [QueueOp.addRateLimited QueueId.primary
          (metaNamespaceKeyFunc cur.metadata)]
    ∧ dispatch deploymentHandlers (Event.delete d) = [] :=
  ⟨rfl, rfl, rfl⟩

/-- Claim C7: on a topology-change event, `processCluster` enqueues exactly
the keys of the root deployments (ownership label empty or absent), in list
order, onto the primary queue — derived deployments are never enqueued — and
returns success; when the listing fails the error is returned and nothing is
enqueued. -/
theorem processCluster_enqueues_exactly_roots
    (ds : List Deployment) (e : Err) :
    (processCluster (Except.ok ds)).ops
      = (ds.filter isRoot).map
          (fun d => QueueOp.addRateLimited QueueId.primary
            (metaNamespaceKeyFunc d.metadata))
    ∧ (processCluster (Except.ok ds)).err = none
    ∧ (processCluster (Except.error e)).ops = []
    ∧ (processCluster (Except.error e)).err = some e :=
  ⟨rebalanceLoop_ops ds, rfl, rfl, rfl⟩

/-- One failing iteration with retry budget left (`n < 5`): the worker gets
the key, `handleErr` re-enqueues it via `AddRateLimited`, the deferred `Done`
runs, and the loop continues with the requeue count incremented. -/
theorem failingRetryRun_step (e : Err) (key : String) (fuel n : Nat)
    (h : n < 5) :
    failingRetryRun e key (fuel + 1) n
      = [QueueOp.get QueueId.primary key,
         QueueOp.addRateLimited QueueId.primary key,
         QueueOp.done QueueId.primary key]
        ++ failingRetryRun e key fuel (n + 1) := by
  simp [failingRetryRun, processNextWorkItemOps, handleErrOps, h]

/-- The final failing iteration (`n ≥ 5`): `handleErr` forgets the key and
reports the error to the process-wide sink; nothing is re-enqueued and the
run stops. -/
theorem failingRetryRun_giveUp (e : Err) (key : String) (fuel n : Nat)
    (h : ¬ n < 5) :
    failingRetryRun e key (fuel + 1) n
      = [QueueOp.get QueueId.primary key,
         QueueOp.forget QueueId.primary key,
         QueueOp.reportError,
         QueueOp.done QueueId.primary key] := by
  simp [failingRetryRun, processNextWorkItemOps, handleErrOps, h]

/-- Claim C6: a key whose handler fails deterministically on every attempt is
re-enqueued via `AddRateLimited` exactly 5 times; the 6th `handleErr`
invocation resets the key's retry counter via `Forget` and reports the error
to the process-wide sink, and the run stops there regardless of the remaining
fuel — the key is never retried a 6th time. -/
theorem failing_handler_retried_exactly_five_times
    (e : Err) (key : String) (fuel : Nat) :
    failingRetryRun e key (fuel + 6) 0
      = [QueueOp.get QueueId.primary key,
         QueueOp.addRateLimited QueueId.primary key,
         QueueOp.done QueueId.primary key,
         QueueOp.get QueueId.primary key,
         QueueOp.addRateLimited QueueId.primary key,
         QueueOp.done QueueId.primary key,
         QueueOp.get QueueId.primary key,
         QueueOp.addRateLimited QueueId.primary key,
         QueueOp.done QueueId.primary key,
         QueueOp.get QueueId.primary key,
         QueueOp.addRateLimited QueueId.primary key,
         QueueOp.done QueueId.primary key,
         QueueOp.get QueueId.primary key,
         QueueOp.addRateLimited QueueId.primary key,
         QueueOp.done QueueId.primary key,
         QueueOp.get QueueId.primary key,
         QueueOp.forget QueueId.primary key,
         QueueOp.reportError,
         QueueOp.done QueueId.primary key]
    ∧ (failingRetryRun e key (fuel + 6) 0).count
        (QueueOp.addRateLimited QueueId.primary key) = 5 := by
  have h1 : failingRetryRun e key (fuel + 6) 0
      = [QueueOp.get QueueId.primary key,
         QueueOp.addRateLimited QueueId.primary key,
         QueueOp.done QueueId.primary key]
        ++ failingRetryRun e key (fuel + 5) 1 :=
    failingRetryRun_step e key (fuel + 5) 0 (by omega)
  have h2 : failingRetryRun e key (fuel + 5) 1
      = [QueueOp.get QueueId.primary key,
         QueueOp.addRateLimited QueueId.primary key,
         QueueOp.done QueueId.primary key]
        ++ failingRetryRun e key (fuel + 4) 2 :=
    failingRetryRun_step e key (fuel + 4) 1 (by omega)
  have h3 : failingRetryRun e key (fuel + 4) 2
      = [QueueOp.get QueueId.primary key,
         QueueOp.addRateLimited QueueId.primary key,
         QueueOp.done QueueId.primary key]
        ++ failingRetryRun e key (fuel + 3) 3 :=
    failingRetryRun_step e key (fuel + 3) 2 (by omega)
  have h4 : failingRetryRun e key (fuel + 3) 3
      = [QueueOp.get QueueId.primary key,
         QueueOp.addRateLimited QueueId.primary key,
         QueueOp.done QueueId.primary key]
        ++ failingRetryRun e key (fuel + 2) 4 :=
    failingRetryRun_step e key (fuel + 2) 3 (by omega)
  have h5 : failingRetryRun e key (fuel + 2) 4
      = [QueueOp.get QueueId.primary key,
         QueueOp.addRateLimited QueueId.primary key,
         QueueOp.done QueueId.primary key]
        ++ failingRetryRun e key (fuel + 1) 5 :=
    failingRetryRun_step e key (fuel + 1) 4 (by omega)
  have h6 : failingRetryRun e key (fuel + 1) 5
      = [QueueOp.get QueueId.primary key,
         QueueOp.forget QueueId.primary key,
         QueueOp.reportError,
         QueueOp.done QueueId.primary key] :=
    failingRetryRun_giveUp e key fuel 5 (by omega)
  have htrace : failingRetryRun e key (fuel + 6) 0
      = [QueueOp.get QueueId.primary key,
         QueueOp.addRateLimited QueueId.primary key,
         QueueOp.done QueueId.primary key,
         QueueOp.get QueueId.primary key,
         QueueOp.addRateLimited QueueId.primary key,
         QueueOp.done QueueId.primary key,
         QueueOp.get QueueId.primary key,
         QueueOp.addRateLimited QueueId.primary key,
         QueueOp.done QueueId.primary key,
         QueueOp.get QueueId.primary key,
         QueueOp.addRateLimited QueueId.primary key,
         QueueOp.done QueueId.primary key,
         QueueOp.get QueueId.primary key,
         QueueOp.addRateLimited QueueId.primary key,
         QueueOp.done QueueId.primary key,
         QueueOp.get QueueId.primary key,
         QueueOp.forget QueueId.primary key,
         QueueOp.reportError,
         QueueOp.done QueueId.primary key] := by
    rw [h1, h2, h3, h4, h5, h6]
    rfl
  refine ⟨htrace, ?_⟩
  rw [htrace]
  simp [List.count_cons, List.count_nil]
